import Mathlib

/-!
# transferdb: module/reverse/m2o/change.go

A shallow embedding of the three resolution entry points of `Change`
(`ChangeTableName`, `ChangeTableColumnDatatype`, `ChangeTableColumnDefaultValue`).

* Go maps are finite partial functions on strings (`GoMap`), catalog rows are
  read through the index expression (`Row`).
* Calls that return `(value, error)` are `Except GoError value`.
* Goroutine scheduling is made explicit: every entry point takes the order in
  which the workers hand their tables over as an argument, and the theorems
  quantify over every such order.
* An entry point that never returns (a worker pool of size zero that is asked
  to start a worker) yields `none`.
* Functions and constants of the packages `common` and `m2o` that live outside
  `change.go` are fields of `Common` and `Helpers`; the general theorems hold
  for every value of these fields.
-/

namespace M2O

/-! ## Data model -/

/-- A non-nil Go `error`. -/
abbrev GoError := String

/-- A Go `map[string]V`, read through the comma-ok form. -/
abbrev GoMap (V : Type) := String → Option V

/-- The Go expression `make(map[string]V)`. -/
def makeMap {V : Type} : GoMap V := fun _ => none

/-- The Go statement `m[k] = v`. -/
def mapAssign {V : Type} (m : GoMap V) (k : String) (v : V) : GoMap V :=
  fun x => if x = k then some v else m x

/-- A catalog row `map[string]string` read through `rowCol[key]`
(a missing key reads as the empty string). -/
abbrev Row := String → String

/-- The struct `meta.TableNameRule` (fields used by `ChangeTableName`). -/
structure TableNameRule where
  DBTypeS : String := ""
  DBTypeT : String := ""
  SchemaNameS : String := ""
  TableNameS : String := ""
  SchemaNameT : String := ""
  TableNameT : String := ""
deriving DecidableEq, Repr

/-- The struct `meta.BuildinDatatypeRule`; only the two engine fields occur in `change.go`,
the datatype fields follow the rule store interface of the spec. -/
structure BuildinDatatypeRule where
  DBTypeS : String := ""
  DBTypeT : String := ""
  DatatypeNameS : String := ""
  DatatypeNameT : String := ""
deriving DecidableEq, Repr

/-- The struct `meta.SchemaDatatypeRule`; the type fields follow the rule store interface
of the spec. -/
structure SchemaDatatypeRule where
  DBTypeS : String := ""
  DBTypeT : String := ""
  SchemaNameS : String := ""
  ColumnTypeS : String := ""
  ColumnTypeT : String := ""
deriving DecidableEq, Repr

/-- The struct `meta.TableDatatypeRule`; table and type fields follow the rule store
interface of the spec. -/
structure TableDatatypeRule where
  DBTypeS : String := ""
  DBTypeT : String := ""
  SchemaNameS : String := ""
  TableNameS : String := ""
  ColumnTypeS : String := ""
  ColumnTypeT : String := ""
deriving DecidableEq, Repr

/-- The struct `meta.ColumnDatatypeRule`; table, column and type fields follow the rule
store interface of the spec. -/
structure ColumnDatatypeRule where
  DBTypeS : String := ""
  DBTypeT : String := ""
  SchemaNameS : String := ""
  TableNameS : String := ""
  ColumnNameS : String := ""
  ColumnTypeS : String := ""
  ColumnTypeT : String := ""
deriving DecidableEq, Repr

/-- The struct `meta.BuildinGlobalDefaultval`; the default fields follow the rule store
interface of the spec. -/
structure BuildinGlobalDefaultval where
  DBTypeS : String := ""
  DBTypeT : String := ""
  DefaultValueS : String := ""
  DefaultValueT : String := ""
deriving DecidableEq, Repr

/-- The struct `meta.BuildinColumnDefaultval`; table, column and default fields follow the
rule store interface of the spec. -/
structure BuildinColumnDefaultval where
  DBTypeS : String := ""
  DBTypeT : String := ""
  SchemaNameS : String := ""
  TableNameS : String := ""
  ColumnNameS : String := ""
  DefaultValueS : String := ""
  DefaultValueT : String := ""
deriving DecidableEq, Repr

/-- The struct `ColumnInfo` built in `ChangeTableColumnDatatype`. -/
structure ColumnInfo where
  DataLength : String
  DataPrecision : String
  DataScale : String
  DatetimePrecision : String
  NULLABLE : String
  DataDefault : String
  Comment : String
deriving DecidableEq, Repr

/-- The struct `Column` built in `ChangeTableColumnDatatype`. -/
structure Column where
  DataType : String
  ColumnInfo : ColumnInfo
deriving DecidableEq, Repr

/-- The rule store `*meta.Meta`: one query per rule model, each taking the key struct the
caller fills in and returning the rule slice or an error. -/
structure Meta where
  DetailTableNameRule : TableNameRule → Except GoError (List TableNameRule)
  BatchQueryBuildinDatatype : BuildinDatatypeRule → Except GoError (List BuildinDatatypeRule)
  DetailSchemaRule : SchemaDatatypeRule → Except GoError (List SchemaDatatypeRule)
  DetailTableRule : TableDatatypeRule → Except GoError (List TableDatatypeRule)
  DetailColumnRule : ColumnDatatypeRule → Except GoError (List ColumnDatatypeRule)
  DetailGlobalDefaultVal : BuildinGlobalDefaultval → Except GoError (List BuildinGlobalDefaultval)
  DetailColumnDefaultVal : BuildinColumnDefaultval → Except GoError (List BuildinColumnDefaultval)

/-- The source catalog `*mysql.MySQL`: `GetMySQLTableColumn(schema, table)`. -/
structure MySQL where
  GetMySQLTableColumn : String → String → Except GoError (List Row)

/-- The struct `Change` (without the context). -/
structure Change where
  SourceSchemaName : String
  TargetSchemaName : String
  SourceTables : List String
  Threads : Int
  MySQL : MySQL
  MetaDB : Meta

/-- The names of package `common` that `change.go` uses and whose declarations are outside
the source files: the two engine constants, `StringUPPER` and the list of default-sensitive
types. -/
structure Common where
  TaskDBMySQL : String
  TaskDBOracle : String
  StringUPPER : String → String
  SpecialMySQLDataDefaultsWithDataTYPE : List String

/-- The functions of package `m2o` that `change.go` calls and whose bodies are outside the
source files. -/
structure Helpers where
  MySQLTableColumnMapRule :
    String → String → Column → List BuildinDatatypeRule → Except GoError (String × String)
  LoadDataTypeRuleUsingTableOrSchema :
    String → String → List TableDatatypeRule → List SchemaDatatypeRule → String
  loadColumnTypeRuleOnlyUsingColumn :
    String → String → String → List ColumnDatatypeRule → String
  LoadColumnDefaultValueRule :
    String → String → List BuildinColumnDefaultval → List BuildinGlobalDefaultval → String

/-- What a call leaves behind when it returns: the two return values and the state of the
aggregator goroutine and of its input channel at that moment. -/
structure Outcome (V : Type) where
  result : Option (GoMap V)
  err : Option GoError
  aggregatorStarted : Bool
  chanClosed : Bool
  doneReceived : Bool

/-! ## ChangeTableName -/

/-- The key struct passed to `DetailTableNameRule`. -/
def tableNameRuleQuery (c : Common) (r : Change) : TableNameRule :=
  { DBTypeS := c.TaskDBMySQL, DBTypeT := c.TaskDBOracle,
    SchemaNameS := r.SourceSchemaName, SchemaNameT := r.TargetSchemaName }

/-- The loop over `tableNameRules` that fills `tableNameRule`. -/
def loadTableNameRules (c : Common) (tableNameRules : List TableNameRule)
    (tableNameRule : GoMap String) : GoMap String :=
  tableNameRules.foldl
    (fun acc tr => mapAssign acc (c.StringUPPER tr.TableNameS) (c.StringUPPER tr.TableNameT))
    tableNameRule

/-- The aggregator goroutine of `ChangeTableName`: the body of `for c := range tableChT`,
run over the tables in the order in which they arrive on `tableChT`. -/
def tableNameAggregator (c : Common) (customTableNameRule : GoMap String)
    (tableNameRule : GoMap String) (arrivals : List String) : GoMap String :=
  arrivals.foldl
    (fun acc t =>
      match customTableNameRule (c.StringUPPER t) with
      | some val => mapAssign acc (c.StringUPPER t) val
      | none => mapAssign acc (c.StringUPPER t) (c.StringUPPER t))
    tableNameRule

/-- The tables that reach `tableChT`: with at least one worker every source table is
forwarded, in the order `sched` fixed by the scheduler; without a worker nothing is. -/
def forwardedTables (r : Change) (sched : List String) : List String :=
  if 1 ≤ r.Threads then sched else []

/-- The method `Change.ChangeTableName`. -/
def ChangeTableName (c : Common) (r : Change) (sched : List String) : Outcome String :=
  let tableNameRule : GoMap String := makeMap
  let customTableNameRule : GoMap String := makeMap
  match r.MetaDB.DetailTableNameRule (tableNameRuleQuery c r) with
  | .error err =>
    { result := some tableNameRule, err := some err,
      aggregatorStarted := false, chanClosed := false, doneReceived := false }
  | .ok tableNameRules =>
    let tableNameRule :=
      if tableNameRules.length > 0 then loadTableNameRules c tableNameRules tableNameRule
      else tableNameRule
    let tableNameRule :=
      tableNameAggregator c customTableNameRule tableNameRule (forwardedTables r sched)
    { result := some tableNameRule, err := none,
      aggregatorStarted := true, chanClosed := true, doneReceived := true }

/-! ## ChangeTableColumnDatatype -/

/-- The key struct passed to `BatchQueryBuildinDatatype`. -/
def buildinDatatypeQuery (c : Common) : BuildinDatatypeRule :=
  { DBTypeS := c.TaskDBMySQL, DBTypeT := c.TaskDBOracle }

/-- The key struct passed to `DetailSchemaRule`. -/
def schemaDatatypeQuery (c : Common) (r : Change) : SchemaDatatypeRule :=
  { DBTypeS := c.TaskDBMySQL, DBTypeT := c.TaskDBOracle, SchemaNameS := r.SourceSchemaName }

/-- The key struct passed to `DetailTableRule`. -/
def tableDatatypeQuery (c : Common) (r : Change) : TableDatatypeRule :=
  { DBTypeS := c.TaskDBMySQL, DBTypeT := c.TaskDBOracle, SchemaNameS := r.SourceSchemaName }

/-- The key struct passed to `DetailColumnRule`. -/
def columnDatatypeQuery (c : Common) (r : Change) : ColumnDatatypeRule :=
  { DBTypeS := c.TaskDBMySQL, DBTypeT := c.TaskDBOracle, SchemaNameS := r.SourceSchemaName }

/-- The four rule slices `ChangeTableColumnDatatype` loads before it starts the workers. -/
structure DatatypeRules where
  buildinDatatypeNames : List BuildinDatatypeRule
  schemaDataTypeMapSlice : List SchemaDatatypeRule
  tableDataTypeMapSlice : List TableDatatypeRule
  columnDataTypeMapSlice : List ColumnDatatypeRule

/-- The `Column` literal built from a catalog row. -/
def columnOfRow (rowCol : Row) : Column :=
  { DataType := rowCol "DATA_TYPE",
    ColumnInfo :=
      { DataLength := rowCol "DATA_LENGTH",
        DataPrecision := rowCol "DATA_PRECISION",
        DataScale := rowCol "DATA_SCALE",
        DatetimePrecision := rowCol "DATETIME_PRECISION",
        NULLABLE := rowCol "NULLABLE",
        DataDefault := rowCol "DATA_DEFAULT",
        Comment := rowCol "COMMENTS" } }

/-- The statement guarded by `len(columnDataTypeMapSlice) == 0`: it stores the result of
`LoadDataTypeRuleUsingTableOrSchema` as it is. -/
def emptyColumnRulesBranch (h : Helpers) (rules : DatatypeRules)
    (originColumnType buildInColumnType : String)
    (columnDatatypeMap : GoMap String) (rowCol : Row) : GoMap String :=
  if rules.columnDataTypeMapSlice.length = 0 then
    mapAssign columnDatatypeMap (rowCol "COLUMN_NAME")
      (h.LoadDataTypeRuleUsingTableOrSchema originColumnType buildInColumnType
        rules.tableDataTypeMapSlice rules.schemaDataTypeMapSlice)
  else columnDatatypeMap

/-- The `switch` on `columnTypeFromColumn` and `columnTypeFromOther`, case by case. -/
def prioritySwitch (c : Common) (buildInColumnType columnTypeFromColumn columnTypeFromOther : String)
    (columnDatatypeMap : GoMap String) (columnName : String) : GoMap String :=
  if columnTypeFromColumn ≠ buildInColumnType ∧ columnTypeFromOther = buildInColumnType then
    mapAssign columnDatatypeMap columnName (c.StringUPPER columnTypeFromColumn)
  else if columnTypeFromColumn ≠ buildInColumnType ∧ columnTypeFromOther ≠ buildInColumnType then
    mapAssign columnDatatypeMap columnName (c.StringUPPER columnTypeFromColumn)
  else if columnTypeFromColumn = buildInColumnType ∧ columnTypeFromOther ≠ buildInColumnType then
    mapAssign columnDatatypeMap columnName (c.StringUPPER columnTypeFromOther)
  else
    mapAssign columnDatatypeMap columnName (c.StringUPPER buildInColumnType)

/-- The body of `for _, rowCol := range tableColumnINFO` in `ChangeTableColumnDatatype`. -/
def datatypeColumn (c : Common) (h : Helpers) (r : Change) (rules : DatatypeRules)
    (sourceTable : String) (columnDatatypeMap : GoMap String) (rowCol : Row) :
    Except GoError (GoMap String) :=
  match h.MySQLTableColumnMapRule r.SourceSchemaName sourceTable (columnOfRow rowCol)
      rules.buildinDatatypeNames with
  | .error err => .error err
  | .ok (originColumnType, buildInColumnType) =>
    let columnDatatypeMap :=
      emptyColumnRulesBranch h rules originColumnType buildInColumnType columnDatatypeMap rowCol
    let columnTypeFromColumn :=
      h.loadColumnTypeRuleOnlyUsingColumn (rowCol "COLUMN_NAME") originColumnType
        buildInColumnType rules.columnDataTypeMapSlice
    let columnTypeFromOther :=
      h.LoadDataTypeRuleUsingTableOrSchema originColumnType buildInColumnType
        rules.tableDataTypeMapSlice rules.schemaDataTypeMapSlice
    .ok (prioritySwitch c buildInColumnType columnTypeFromColumn columnTypeFromOther
      columnDatatypeMap (rowCol "COLUMN_NAME"))

/-- The loop `for _, rowCol := range tableColumnINFO` in `ChangeTableColumnDatatype`. -/
def datatypeColumns (c : Common) (h : Helpers) (r : Change) (rules : DatatypeRules)
    (sourceTable : String) : GoMap String → List Row → Except GoError (GoMap String)
  | columnDatatypeMap, [] => .ok columnDatatypeMap
  | columnDatatypeMap, rowCol :: rest =>
    match datatypeColumn c h r rules sourceTable columnDatatypeMap rowCol with
    | .error err => .error err
    | .ok m => datatypeColumns c h r rules sourceTable m rest

/-- The function handed to `wg.Go` in `ChangeTableColumnDatatype`: on success the value is
the single entry `sourceTable -> columnDatatypeMap` it sends on `tableColumnChan`. -/
def datatypeWorker (c : Common) (h : Helpers) (r : Change) (rules : DatatypeRules)
    (sourceTable : String) : Except GoError (String × GoMap String) :=
  match r.MySQL.GetMySQLTableColumn r.SourceSchemaName sourceTable with
  | .error err => .error err
  | .ok tableColumnINFO =>
    match datatypeColumns c h r rules sourceTable makeMap tableColumnINFO with
    | .error err => .error err
    | .ok columnDatatypeMap => .ok (sourceTable, columnDatatypeMap)

/-- The value of `wg.Wait()`: the first non-nil error among the workers, taken in the order
in which they finish. -/
def firstError {α : Type} : List (Except GoError α) → Option GoError
  | [] => none
  | .error err :: _ => some err
  | .ok _ :: rest => firstError rest

/-- The entries the successful workers send on the channel, in the order they finish. -/
def sentEntries {α : Type} : List (Except GoError α) → List α
  | [] => []
  | .error _ :: rest => sentEntries rest
  | .ok a :: rest => a :: sentEntries rest

/-- The aggregator goroutine of `ChangeTableColumnDatatype` and of
`ChangeTableColumnDefaultValue`: `for c := range ch` with `m[key] = val` for the entry of
each received map. -/
def columnAggregator (m : GoMap (GoMap String)) (received : List (String × GoMap String)) :
    GoMap (GoMap String) :=
  received.foldl (fun acc entry => mapAssign acc entry.1 entry.2) m

/-- The return `(m, err)` taken when a rule query fails: no goroutine was started yet. -/
def ruleStoreFailure {V : Type} (m : GoMap V) (err : GoError) : Outcome V :=
  { result := some m, err := some err,
    aggregatorStarted := false, chanClosed := false, doneReceived := false }

/-- The tail shared by `ChangeTableColumnDatatype` and `ChangeTableColumnDefaultValue`, from
`wg.SetLimit(r.Threads)` on. With a limit of zero the first `wg.Go` never returns, hence
`none` as soon as there is a table. Otherwise every table gets a worker, `finished` lists the
worker results in the order they finish, and `wg.Wait()` decides between `return nil, err`
(before the channel is closed) and closing the channel, waiting for the aggregator and
returning its map. -/
def fanOutFanIn (threads : Int) (sourceTables : List String)
    (tableColumnMap : GoMap (GoMap String))
    (finished : List (Except GoError (String × GoMap String))) :
    Option (Outcome (GoMap String)) :=
  if threads = 0 ∧ sourceTables ≠ [] then none
  else
    match firstError finished with
    | some err =>
      some { result := none, err := some err,
             aggregatorStarted := true, chanClosed := false, doneReceived := false }
    | none =>
      some { result := some (columnAggregator tableColumnMap (sentEntries finished)), err := none,
             aggregatorStarted := true, chanClosed := true, doneReceived := true }

/-- The method `Change.ChangeTableColumnDatatype`; `order` lists the source tables in the
order in which their workers finish. -/
def ChangeTableColumnDatatype (c : Common) (h : Helpers) (r : Change) (order : List String) :
    Option (Outcome (GoMap String)) :=
  let tableColumnDatatypeMap : GoMap (GoMap String) := makeMap
  match r.MetaDB.BatchQueryBuildinDatatype (buildinDatatypeQuery c) with
  | .error err => some (ruleStoreFailure tableColumnDatatypeMap err)
  | .ok buildinDatatypeNames =>
    match r.MetaDB.DetailSchemaRule (schemaDatatypeQuery c r) with
    | .error err => some (ruleStoreFailure tableColumnDatatypeMap err)
    | .ok schemaDataTypeMapSlice =>
      match r.MetaDB.DetailTableRule (tableDatatypeQuery c r) with
      | .error err => some (ruleStoreFailure tableColumnDatatypeMap err)
      | .ok tableDataTypeMapSlice =>
        match r.MetaDB.DetailColumnRule (columnDatatypeQuery c r) with
        | .error err => some (ruleStoreFailure tableColumnDatatypeMap err)
        | .ok columnDataTypeMapSlice =>
          let rules : DatatypeRules :=
            { buildinDatatypeNames := buildinDatatypeNames,
              schemaDataTypeMapSlice := schemaDataTypeMapSlice,
              tableDataTypeMapSlice := tableDataTypeMapSlice,
              columnDataTypeMapSlice := columnDataTypeMapSlice }
          fanOutFanIn r.Threads r.SourceTables tableColumnDatatypeMap
            (order.map (datatypeWorker c h r rules))

/-! ## ChangeTableColumnDefaultValue -/

/-- The key struct passed to `DetailGlobalDefaultVal`. -/
def globalDefaultvalQuery (c : Common) : BuildinGlobalDefaultval :=
  { DBTypeS := c.TaskDBMySQL, DBTypeT := c.TaskDBOracle }

/-- The key struct passed to `DetailColumnDefaultVal`: `DBTypeS` is `common.TaskDBOracle`
and `DBTypeT` is `common.TaskDBMySQL`, as written in the source. -/
def columnDefaultvalQuery (c : Common) (r : Change) : BuildinColumnDefaultval :=
  { DBTypeS := c.TaskDBOracle, DBTypeT := c.TaskDBMySQL, SchemaNameS := r.SourceSchemaName }

/-- Modelled from the spec: `common.IsContainString` is outside the source files; section
4.3 says the native type belongs to a fixed set: membership of a string in a slice. -/
def IsContainString (items : List String) (item : String) : Bool :=
  items.any (fun eachItem => eachItem == item)

/-- Modelled from the spec: `common.StringsBuilder` is outside the source files; section
4.3 says the literal is wrapped in single quotes: the concatenation of the arguments. -/
def StringsBuilder (str : List String) : String :=
  str.foldl (fun b p => b ++ p) ""

/-- The method `MatchString` of the regular expression `^.+\(\)$`: the text is some
non-empty run of characters other than the line feed, followed by `()` and nothing else. -/
def regMatchString (s : String) : Bool :=
  let cs := s.data
  decide (3 ≤ cs.length)
    && (cs.drop (cs.length - 2) == ['(', ')'])
    && (cs.take (cs.length - 2)).all (fun ch => ch != '\n')

/-- The rune comparison of Go's `strings.EqualFold` on code points, for the case that one of
the two is below 128: equal, or a letter A to Z against its lower-case form, or K and k
against the Kelvin sign U+212A, or S and s against the long s U+017F (the only simple-fold
orbits that meet the ASCII range). -/
def foldEqRune (a b : Nat) : Bool :=
  let lo := min a b
  let hi := max a b
  decide (a = b)
    || decide (65 ≤ lo ∧ lo ≤ 90 ∧ hi = lo + 32)
    || decide ((lo = 75 ∨ lo = 107) ∧ hi = 8490)
    || decide ((lo = 83 ∨ lo = 115) ∧ hi = 383)

/-- Go's `strings.EqualFold` on rune lists; exact whenever one argument is ASCII. -/
def equalFoldRunes : List Char → List Char → Bool
  | [], [] => true
  | a :: s, b :: t => foldEqRune a.toNat b.toNat && equalFoldRunes s t
  | _, _ => false

/-- Go's `strings.EqualFold`; exact whenever one argument is ASCII, as at both call
sites of `change.go`, where the second argument is a literal. -/
def EqualFold (s t : String) : Bool := equalFoldRunes s.data t.data

/-- The value of `regDataDefault` computed for a catalog row. -/
def regDataDefault (c : Common) (rowCol : Row) : String :=
  if IsContainString c.SpecialMySQLDataDefaultsWithDataTYPE
      (c.StringUPPER (rowCol "DATA_TYPE")) then
    if regMatchString (rowCol "DATA_DEFAULT")
        || EqualFold (rowCol "DATA_DEFAULT") "CURRENT_TIMESTAMP"
        || EqualFold (rowCol "DATA_DEFAULT") "" then
      rowCol "DATA_DEFAULT"
    else
      StringsBuilder ["'", rowCol "DATA_DEFAULT", "'"]
  else
    rowCol "DATA_DEFAULT"

/-- The two rule slices `ChangeTableColumnDefaultValue` loads before it starts the workers. -/
structure DefaultValueRules where
  globalDefaultValueMapSlice : List BuildinGlobalDefaultval
  columnDefaultValueMapSlice : List BuildinColumnDefaultval

/-- The body of `for _, rowCol := range tableColumnINFO` in
`ChangeTableColumnDefaultValue`. -/
def defaultValueColumn (c : Common) (h : Helpers) (rules : DefaultValueRules)
    (columnDataDefaultValMap : GoMap String) (rowCol : Row) : GoMap String :=
  mapAssign columnDataDefaultValMap (rowCol "COLUMN_NAME")
    (h.LoadColumnDefaultValueRule (rowCol "COLUMN_NAME") (regDataDefault c rowCol)
      rules.columnDefaultValueMapSlice rules.globalDefaultValueMapSlice)

/-- The function handed to `wg.Go` in `ChangeTableColumnDefaultValue`. -/
def defaultValueWorker (c : Common) (h : Helpers) (r : Change) (rules : DefaultValueRules)
    (sourceTable : String) : Except GoError (String × GoMap String) :=
  match r.MySQL.GetMySQLTableColumn r.SourceSchemaName sourceTable with
  | .error err => .error err
  | .ok tableColumnINFO =>
    .ok (sourceTable, tableColumnINFO.foldl (defaultValueColumn c h rules) makeMap)

/-- The method `Change.ChangeTableColumnDefaultValue`; `order` lists the source tables in
the order in which their workers finish. The pattern handed to `regexp.Compile` is a valid
constant, so that call returns no error. -/
def ChangeTableColumnDefaultValue (c : Common) (h : Helpers) (r : Change)
    (order : List String) : Option (Outcome (GoMap String)) :=
  let tableDefaultValMap : GoMap (GoMap String) := makeMap
  match r.MetaDB.DetailGlobalDefaultVal (globalDefaultvalQuery c) with
  | .error err => some (ruleStoreFailure tableDefaultValMap err)
  | .ok globalDefaultValueMapSlice =>
    match r.MetaDB.DetailColumnDefaultVal (columnDefaultvalQuery c r) with
    | .error err => some (ruleStoreFailure tableDefaultValMap err)
    | .ok columnDefaultValueMapSlice =>
      let rules : DefaultValueRules :=
        { globalDefaultValueMapSlice := globalDefaultValueMapSlice,
          columnDefaultValueMapSlice := columnDefaultValueMapSlice }
      fanOutFanIn r.Threads r.SourceTables tableDefaultValMap
        (order.map (defaultValueWorker c h r rules))

/-! ## Concrete collaborators used to evaluate the code -/

/-- Modelled from the spec: `common.StringUPPER` is outside the source files; the spec says
names are normalized to upper case. This is the upper-casing of the letters a to z. -/
def asciiUpper (s : String) : String := String.mk (s.data.map Char.toUpper)

/-- Modelled from the spec: the constants of package `common` are outside the source files;
the spec speaks of a (source engine, target engine) pair and of a fixed set of date/time-like
default-sensitive types. -/
def stdCommon : Common :=
  { TaskDBMySQL := "MYSQL", TaskDBOracle := "ORACLE", StringUPPER := asciiUpper,
    SpecialMySQLDataDefaultsWithDataTYPE := ["TIME", "DATE", "DATETIME", "TIMESTAMP"] }

/-- A rule store without any rule. -/
def emptyMeta : Meta :=
  { DetailTableNameRule := fun _ => .ok [],
    BatchQueryBuildinDatatype := fun _ => .ok [],
    DetailSchemaRule := fun _ => .ok [],
    DetailTableRule := fun _ => .ok [],
    DetailColumnRule := fun _ => .ok [],
    DetailGlobalDefaultVal := fun _ => .ok [],
    DetailColumnDefaultVal := fun _ => .ok [] }

/-- A rule store whose only rule renames table `orders` of schema `shop` to `orders_new`;
it answers the query for the MySQL to Oracle rules of that schema. -/
def renameMeta : Meta :=
  { emptyMeta with
    DetailTableNameRule := fun q =>
      if q.DBTypeS = "MYSQL" ∧ q.DBTypeT = "ORACLE" ∧ q.SchemaNameS = "shop" then
        .ok [{ DBTypeS := "MYSQL", DBTypeT := "ORACLE", SchemaNameS := "shop",
               TableNameS := "orders", SchemaNameT := "SHOP", TableNameT := "orders_new" }]
      else .ok [] }

/-- A catalog without columns. -/
def emptyCatalog : MySQL := { GetMySQLTableColumn := fun _ _ => .ok [] }

/-- A run over the two tables `orders` and `items` of schema `shop` with one worker. -/
def renameRun : Change :=
  { SourceSchemaName := "shop", TargetSchemaName := "SHOP",
    SourceTables := ["orders", "items"], Threads := 1,
    MySQL := emptyCatalog, MetaDB := renameMeta }

/-- Modelled from the spec: `MySQLTableColumnMapRule` is outside the source files. Section
4.1: the builtin mapper maps the native type to the target type of the builtin catalog and
echoes the native type, upper-cased, when the catalog has no entry. -/
def specMapRule (_schema _table : String) (column : Column)
    (buildinDatatypeNames : List BuildinDatatypeRule) : Except GoError (String × String) :=
  match buildinDatatypeNames.find? (fun b => EqualFold column.DataType b.DatatypeNameS) with
  | some b => .ok (column.DataType, b.DatatypeNameT)
  | none => .ok (column.DataType, asciiUpper column.DataType)

/-- Modelled from the spec: `LoadDataTypeRuleUsingTableOrSchema` is outside the source files.
Section 4.2, step 3: the table-scoped rule for the type if there is one, else the
schema-scoped rule, else the builtin type. -/
def specTableOrSchema (originColumnType buildInColumnType : String)
    (tableDataTypeMapSlice : List TableDatatypeRule)
    (schemaDataTypeMapSlice : List SchemaDatatypeRule) : String :=
  match tableDataTypeMapSlice.find? (fun t => EqualFold originColumnType t.ColumnTypeS) with
  | some t => t.ColumnTypeT
  | none =>
    match schemaDataTypeMapSlice.find? (fun s => EqualFold originColumnType s.ColumnTypeS) with
    | some s => s.ColumnTypeT
    | none => buildInColumnType

/-- Modelled from the spec: `loadColumnTypeRuleOnlyUsingColumn` is outside the source files.
Section 4.2, step 2: the column-scoped rule for the column and type if there is one, else the
builtin type. -/
def specOnlyColumn (columnName originColumnType buildInColumnType : String)
    (columnDataTypeMapSlice : List ColumnDatatypeRule) : String :=
  match columnDataTypeMapSlice.find?
      (fun k => EqualFold columnName k.ColumnNameS && EqualFold originColumnType k.ColumnTypeS) with
  | some k => k.ColumnTypeT
  | none => buildInColumnType

/-- Modelled from the spec: `LoadColumnDefaultValueRule` is outside the source files.
Section 4.2: the column-scoped override if one matches the column, else the global rule
for the literal, else the literal unchanged. -/
def specDefaultValueRule (columnName defaultValue : String)
    (columnDefaultValueMapSlice : List BuildinColumnDefaultval)
    (globalDefaultValueMapSlice : List BuildinGlobalDefaultval) : String :=
  match columnDefaultValueMapSlice.find? (fun k => EqualFold columnName k.ColumnNameS) with
  | some k => k.DefaultValueT
  | none =>
    match globalDefaultValueMapSlice.find? (fun g => EqualFold defaultValue g.DefaultValueS) with
    | some g => g.DefaultValueT
    | none => defaultValue

/-- The four spec-modelled helpers together. -/
def specHelpers : Helpers :=
  { MySQLTableColumnMapRule := specMapRule,
    LoadDataTypeRuleUsingTableOrSchema := specTableOrSchema,
    loadColumnTypeRuleOnlyUsingColumn := specOnlyColumn,
    LoadColumnDefaultValueRule := specDefaultValueRule }

/-- A catalog row: column `c1` of native type `int`, no default. -/
def intRow : Row := fun key =>
  if key = "COLUMN_NAME" then "c1" else if key = "DATA_TYPE" then "int" else ""

/-- A catalog row: column `created` of native type `datetime` with default
`CURRENT_TIMESTAMP`. -/
def createdRow : Row := fun key =>
  if key = "COLUMN_NAME" then "created"
  else if key = "DATA_TYPE" then "datetime"
  else if key = "DATA_DEFAULT" then "CURRENT_TIMESTAMP"
  else ""

/-- A catalog row of native type `datetime` with the given raw default. -/
def datetimeRow (rawDefault : String) : Row := fun key =>
  if key = "COLUMN_NAME" then "c2"
  else if key = "DATA_TYPE" then "datetime"
  else if key = "DATA_DEFAULT" then rawDefault
  else ""

/-- A catalog row of native type `varchar` with the given raw default. -/
def varcharRow (rawDefault : String) : Row := fun key =>
  if key = "COLUMN_NAME" then "c3"
  else if key = "DATA_TYPE" then "varchar"
  else if key = "DATA_DEFAULT" then rawDefault
  else ""

/-- A catalog of schema `shop`: tables `a` and `b` both consist of the columns `c1 int` and
`created datetime`; every other table is unknown. -/
def shopCatalog : MySQL :=
  { GetMySQLTableColumn := fun schema table =>
      if schema = "shop" ∧ (table = "a" ∨ table = "b") then .ok [intRow, createdRow]
      else .error "table not found" }

/-- The builtin catalog `int -> NUMBER`, `datetime -> DATE` for MySQL to Oracle. -/
def shopBuildin (q : BuildinDatatypeRule) : Except GoError (List BuildinDatatypeRule) :=
  if q.DBTypeS = "MYSQL" ∧ q.DBTypeT = "ORACLE" then
    .ok [{ DBTypeS := "MYSQL", DBTypeT := "ORACLE", DatatypeNameS := "INT",
           DatatypeNameT := "NUMBER" },
         { DBTypeS := "MYSQL", DBTypeT := "ORACLE", DatatypeNameS := "DATETIME",
           DatatypeNameT := "DATE" }]
  else .ok []

/-- A rule store with the builtin catalog and no override. -/
def builtinOnlyMeta : Meta :=
  { emptyMeta with BatchQueryBuildinDatatype := shopBuildin }

/-- The table-scope rule written for table `a` of schema `shop`: `int -> number(10)`. -/
def tableRuleForA : TableDatatypeRule :=
  { DBTypeS := "MYSQL", DBTypeT := "ORACLE", SchemaNameS := "shop", TableNameS := "a",
    ColumnTypeS := "int", ColumnTypeT := "number(10)" }

/-- The column-scope rule written for column `c1` of table `a` of schema `shop`:
`int -> number(19)`. -/
def columnRuleForA : ColumnDatatypeRule :=
  { DBTypeS := "MYSQL", DBTypeT := "ORACLE", SchemaNameS := "shop", TableNameS := "a",
    ColumnNameS := "c1", ColumnTypeS := "int", ColumnTypeT := "number(19)" }

/-- A rule store with the builtin catalog and the table-scope rule for table `a`. -/
def tableRuleMeta : Meta :=
  { builtinOnlyMeta with
    DetailTableRule := fun q =>
      if q.DBTypeS = "MYSQL" ∧ q.DBTypeT = "ORACLE" ∧ q.SchemaNameS = "shop" then
        .ok [tableRuleForA]
      else .ok [] }

/-- A rule store with the builtin catalog and the column-scope rule for table `a`. -/
def columnRuleMeta : Meta :=
  { builtinOnlyMeta with
    DetailColumnRule := fun q =>
      if q.DBTypeS = "MYSQL" ∧ q.DBTypeT = "ORACLE" ∧ q.SchemaNameS = "shop" then
        .ok [columnRuleForA]
      else .ok [] }

/-- The column-scope default rule stored for MySQL to Oracle, schema `shop`, table `a`,
column `created`: the default becomes `SYSDATE`. -/
def defaultRuleForCreated : BuildinColumnDefaultval :=
  { DBTypeS := "MYSQL", DBTypeT := "ORACLE", SchemaNameS := "shop", TableNameS := "a",
    ColumnNameS := "created", DefaultValueS := "CURRENT_TIMESTAMP", DefaultValueT := "SYSDATE" }

/-- A rule store that holds `defaultRuleForCreated` under its own key (source MySQL, target
Oracle, schema `shop`) and nothing under any other key. -/
def defaultRuleMeta : Meta :=
  { builtinOnlyMeta with
    DetailColumnDefaultVal := fun q =>
      if q.DBTypeS = "MYSQL" ∧ q.DBTypeT = "ORACLE" ∧ q.SchemaNameS = "shop" then
        .ok [defaultRuleForCreated]
      else .ok [] }

/-- A run over the tables `a` and `b` of schema `shop` with the given rule store and
concurrency limit. -/
def shopRun (metaDB : Meta) (threads : Int) (tables : List String) : Change :=
  { SourceSchemaName := "shop", TargetSchemaName := "SHOP", SourceTables := tables,
    Threads := threads, MySQL := shopCatalog, MetaDB := metaDB }

/-- The entry `result[table][column]` of a call that returned. -/
def resolvedEntry (out : Option (Outcome (GoMap String))) (table column : String) :
    Option String :=
  match out with
  | none => none
  | some o =>
    match o.result with
    | none => none
    | some m =>
      match m table with
      | none => none
      | some inner => inner column

/-- The error and the goroutine state a call leaves behind: the error, whether the
aggregator was started, whether its channel was closed, whether `done` was received. -/
def leftBehind (out : Option (Outcome (GoMap String))) :
    Option (Option GoError × Bool × Bool × Bool) :=
  out.map (fun o => (o.err, o.aggregatorStarted, o.chanClosed, o.doneReceived))

/-! ## Specification-side definitions -/

/-- The decision of the general cascade in the words of the spec (section 4.2, step 4):
the column candidate if it differs from the base, else the table-or-schema candidate if it
differs from the base, else the base; the result is normalized to upper case. -/
def generalCascade (c : Common) (base colCandidate tableOrSchemaCandidate : String) : String :=
  if colCandidate ≠ base then c.StringUPPER colCandidate
  else if tableOrSchemaCandidate ≠ base then c.StringUPPER tableOrSchemaCandidate
  else c.StringUPPER base

/-- The general algorithm of the spec for one column (section 4.2, steps 1 to 4), without
any special case for an empty column-scope rule collection. -/
def generalDatatypeColumn (c : Common) (h : Helpers) (r : Change) (rules : DatatypeRules)
    (sourceTable : String) (columnDatatypeMap : GoMap String) (rowCol : Row) :
    Except GoError (GoMap String) :=
  match h.MySQLTableColumnMapRule r.SourceSchemaName sourceTable (columnOfRow rowCol)
      rules.buildinDatatypeNames with
  | .error err => .error err
  | .ok (originColumnType, base) =>
    let colCandidate :=
      h.loadColumnTypeRuleOnlyUsingColumn (rowCol "COLUMN_NAME") originColumnType base
        rules.columnDataTypeMapSlice
    let tableOrSchemaCandidate :=
      h.LoadDataTypeRuleUsingTableOrSchema originColumnType base
        rules.tableDataTypeMapSlice rules.schemaDataTypeMapSlice
    .ok (mapAssign columnDatatypeMap (rowCol "COLUMN_NAME")
      (generalCascade c base colCandidate tableOrSchemaCandidate))

/-- The general algorithm of the spec run over the catalog rows of one table. -/
def generalDatatypeColumns (c : Common) (h : Helpers) (r : Change) (rules : DatatypeRules)
    (sourceTable : String) : GoMap String → List Row → Except GoError (GoMap String)
  | columnDatatypeMap, [] => .ok columnDatatypeMap
  | columnDatatypeMap, rowCol :: rest =>
    match generalDatatypeColumn c h r rules sourceTable columnDatatypeMap rowCol with
    | .error err => .error err
    | .ok m => generalDatatypeColumns c h r rules sourceTable m rest

/-- A character of an identifier: a letter, a digit or the underscore. -/
def isIdentChar (ch : Char) : Bool := ch.isAlphanum || ch == '_'

/-- A raw default of the form `identifier()`: a non-empty run of identifier characters
followed by `()`. -/
def isIdentifierCall (s : String) : Bool :=
  let cs := s.data
  decide (3 ≤ cs.length)
    && (cs.drop (cs.length - 2) == ['(', ')'])
    && (cs.take (cs.length - 2)).all isIdentChar

/-- A raw default that ends in `()` after a non-empty text without line feed, whether or not
that text is an identifier. -/
def singleLineCall (s : String) : Prop :=
  ∃ pre : List Char, pre ≠ [] ∧ '\n' ∉ pre ∧ s.data = pre ++ ['(', ')']

/-- The lower-case form of a code point: the letters A to Z move to a to z. -/
def lowerRune (a : Nat) : Nat := if 65 ≤ a ∧ a ≤ 90 then a + 32 else a

/-- Two texts that are equal up to the case of their letters. -/
def sameUpToLetterCase (s t : String) : Bool :=
  s.data.map (fun ch => lowerRune ch.toNat) == t.data.map (fun ch => lowerRune ch.toNat)

/-- Whether the aggregator goroutine `for c := range ch { ... }; done()` reaches `done()`
within `fuel` receive operations, on a channel that holds the entries `pending` and that is
closed or not. A receive on an empty open channel blocks; once `wg.Wait()` has returned no
worker is left to send and only the caller could close the channel, so after the caller has
returned the channel stays as it is. -/
def aggregatorReachesDone {α : Type} (closed : Bool) : Nat → List α → Bool
  | 0, _ => false
  | fuel + 1, _ :: rest => aggregatorReachesDone closed fuel rest
  | _ + 1, [] => closed

/-! ## Theorems: ChangeTableName -/

theorem mapAssign_same {V : Type} (m : GoMap V) (k : String) (v : V) :
    mapAssign m k v k = some v := by
  simp [mapAssign]

theorem mapAssign_other {V : Type} (m : GoMap V) (k x : String) (v : V) (h : x ≠ k) :
    mapAssign m k v x = m x := by
  simp [mapAssign, h]

/-- With an empty `customTableNameRule` the aggregator keeps or creates the identity entry
of every table it receives. -/
theorem tableNameAggregator_identity (c : Common) (arrivals : List String) (t : String) :
    ∀ m : GoMap String,
      (m (c.StringUPPER t) = some (c.StringUPPER t) ∨ t ∈ arrivals) →
      tableNameAggregator c makeMap m arrivals (c.StringUPPER t) = some (c.StringUPPER t) := by
  induction arrivals with
  | nil =>
    intro m h
    rcases h with h | h
    · simpa [tableNameAggregator] using h
    · simp at h
  | cons a rest ih =>
    intro m h
    have hstep : tableNameAggregator c makeMap m (a :: rest)
        = tableNameAggregator c makeMap
            (mapAssign m (c.StringUPPER a) (c.StringUPPER a)) rest := by
      simp [tableNameAggregator, makeMap]
    rw [hstep]
    apply ih
    by_cases hk : c.StringUPPER t = c.StringUPPER a
    · left
      rw [hk]
      exact mapAssign_same _ _ _
    · rcases h with h | h
      · left
        rw [mapAssign_other _ _ _ _ hk]
        exact h
      · rcases List.mem_cons.mp h with h | h
        · exact absurd (by rw [h]) hk
        · right
          exact h

/-- C2. For every source-table list, every `Threads >= 1`, every order in which the workers
forward the tables and every rule collection the rule store returns without error, each input
table `t` that no table-name rule covers (no rule whose `TableNameS` equals `t` after
upper-casing) has an entry in the returned map, that entry sends `upper(t)` to `upper(t)`,
and the returned error is nil. -/
theorem changeTableName_default (c : Common) (r : Change) (sched : List String)
    (rules : List TableNameRule) (t : String)
    (hThreads : 1 ≤ r.Threads)
    (hsched : sched.Perm r.SourceTables)
    (hrules : r.MetaDB.DetailTableNameRule (tableNameRuleQuery c r) = .ok rules)
    (ht : t ∈ r.SourceTables)
    (_hnone : ∀ tr ∈ rules, c.StringUPPER tr.TableNameS ≠ c.StringUPPER t) :
    ∃ m, (ChangeTableName c r sched).result = some m
      ∧ m (c.StringUPPER t) = some (c.StringUPPER t)
      ∧ (ChangeTableName c r sched).err = none := by
  have hmem : t ∈ forwardedTables r sched := by
    simp only [forwardedTables, hThreads, if_true]
    exact hsched.mem_iff.mpr ht
  simp only [ChangeTableName, hrules]
  exact ⟨_, rfl, tableNameAggregator_identity c _ t _ (Or.inr hmem), trivial⟩

/-- Witness of C2: table `items` of `renameRun` has no rule and is mapped to `ITEMS`. -/
theorem changeTableName_default_witness :
    ∃ m, (ChangeTableName stdCommon renameRun ["items", "orders"]).result = some m
      ∧ m "ITEMS" = some "ITEMS"
      ∧ (ChangeTableName stdCommon renameRun ["items", "orders"]).err = none :=
  changeTableName_default stdCommon renameRun ["items", "orders"]
    [{ DBTypeS := "MYSQL", DBTypeT := "ORACLE", SchemaNameS := "shop",
       TableNameS := "orders", SchemaNameT := "SHOP", TableNameT := "orders_new" }]
    "items" (by decide) (by decide) rfl (by decide) (by decide)

/-- C1 (code at the failing input). Table `orders` has the table-name rule
`orders -> orders_new`, the rule store returns it without error and `Threads = 1`, yet the
returned map sends `ORDERS` to `ORDERS`, not to `ORDERS_NEW`: the aggregator consults
`customTableNameRule`, which is never filled, and overwrites the entry loaded from the rule. -/
theorem changeTableName_override_lost :
    renameRun.MetaDB.DetailTableNameRule (tableNameRuleQuery stdCommon renameRun)
        = .ok [{ DBTypeS := "MYSQL", DBTypeT := "ORACLE", SchemaNameS := "shop",
                 TableNameS := "orders", SchemaNameT := "SHOP", TableNameT := "orders_new" }]
      ∧ (∃ m, (ChangeTableName stdCommon renameRun ["orders", "items"]).result = some m
          ∧ m "ORDERS" = some "ORDERS")
      ∧ stdCommon.StringUPPER "orders_new" = "ORDERS_NEW"
      ∧ some "ORDERS" ≠ some "ORDERS_NEW" := by
  refine ⟨rfl, ⟨_, rfl, ?_⟩, by decide, by decide⟩
  decide

/-! ## Theorems: the datatype cascade -/

theorem mapAssign_overwrite {V : Type} (m : GoMap V) (k : String) (v w : V) :
    mapAssign (mapAssign m k v) k w = mapAssign m k w := by
  funext x
  by_cases hx : x = k <;> simp [mapAssign, hx]

/-- Whatever the map holds before, the `switch` stores the result of the general cascade. -/
theorem prioritySwitch_eq_generalCascade (c : Common) (base col other : String)
    (m : GoMap String) (name : String) :
    prioritySwitch c base col other m name
      = mapAssign m name (generalCascade c base col other) := by
  unfold prioritySwitch generalCascade
  by_cases h1 : col = base <;> by_cases h2 : other = base <;> simp [h1, h2]

/-- The loop body stores the result of the general cascade under the column name. -/
theorem datatypeColumn_own_entry (c : Common) (h : Helpers) (r : Change)
    (rules : DatatypeRules) (sourceTable : String) (m : GoMap String) (rowCol : Row)
    (origin base : String)
    (hmap : h.MySQLTableColumnMapRule r.SourceSchemaName sourceTable (columnOfRow rowCol)
      rules.buildinDatatypeNames = .ok (origin, base)) :
    datatypeColumn c h r rules sourceTable m rowCol
      = .ok (mapAssign (emptyColumnRulesBranch h rules origin base m rowCol)
          (rowCol "COLUMN_NAME")
          (generalCascade c base
            (h.loadColumnTypeRuleOnlyUsingColumn (rowCol "COLUMN_NAME") origin base
              rules.columnDataTypeMapSlice)
            (h.LoadDataTypeRuleUsingTableOrSchema origin base rules.tableDataTypeMapSlice
              rules.schemaDataTypeMapSlice))) := by
  simp only [datatypeColumn, hmap, prioritySwitch_eq_generalCascade]

/-- The loop body leaves the entries of all other column names as they are. -/
theorem datatypeColumn_other_entry (c : Common) (h : Helpers) (r : Change)
    (rules : DatatypeRules) (sourceTable : String) (m m2 : GoMap String) (rowCol : Row)
    (name : String)
    (hstep : datatypeColumn c h r rules sourceTable m rowCol = .ok m2)
    (hne : name ≠ rowCol "COLUMN_NAME") : m2 name = m name := by
  cases hmap : h.MySQLTableColumnMapRule r.SourceSchemaName sourceTable (columnOfRow rowCol)
      rules.buildinDatatypeNames with
  | error err => simp [datatypeColumn, hmap] at hstep
  | ok p =>
    obtain ⟨origin, base⟩ := p
    rw [datatypeColumn_own_entry c h r rules sourceTable m rowCol origin base hmap] at hstep
    injection hstep with hm
    rw [← hm, mapAssign_other _ _ _ _ hne]
    unfold emptyColumnRulesBranch
    split_ifs
    · exact mapAssign_other _ _ _ _ hne
    · rfl

/-- The column loop leaves the entry of a name that none of its rows carries. -/
theorem datatypeColumns_other_entry (c : Common) (h : Helpers) (r : Change)
    (rules : DatatypeRules) (sourceTable : String) (name : String) (rows : List Row) :
    ∀ m m2 : GoMap String,
      datatypeColumns c h r rules sourceTable m rows = .ok m2 →
      name ∉ rows.map (fun row => row "COLUMN_NAME") → m2 name = m name := by
  induction rows with
  | nil =>
    intro m m2 hloop _
    simp only [datatypeColumns] at hloop
    injection hloop with hm
    rw [hm]
  | cons x rest ih =>
    intro m m2 hloop hnot
    simp only [datatypeColumns] at hloop
    cases hx : datatypeColumn c h r rules sourceTable m x with
    | error err => simp [hx] at hloop
    | ok mx =>
      rw [hx] at hloop
      simp only [List.map_cons, List.mem_cons, not_or] at hnot
      rw [ih mx m2 hloop hnot.2]
      exact datatypeColumn_other_entry c h r rules sourceTable m mx x name hx hnot.1

/-- After the column loop over rows with pairwise different names, the entry of each row is
the result of the general cascade for that row. -/
theorem datatypeColumns_entry (c : Common) (h : Helpers) (r : Change)
    (rules : DatatypeRules) (sourceTable : String) (rowCol : Row) (origin base : String)
    (hmap : h.MySQLTableColumnMapRule r.SourceSchemaName sourceTable (columnOfRow rowCol)
      rules.buildinDatatypeNames = .ok (origin, base))
    (rows : List Row) :
    ∀ m m2 : GoMap String,
      datatypeColumns c h r rules sourceTable m rows = .ok m2 →
      rowCol ∈ rows →
      (rows.map (fun row => row "COLUMN_NAME")).Nodup →
      m2 (rowCol "COLUMN_NAME")
        = some (generalCascade c base
            (h.loadColumnTypeRuleOnlyUsingColumn (rowCol "COLUMN_NAME") origin base
              rules.columnDataTypeMapSlice)
            (h.LoadDataTypeRuleUsingTableOrSchema origin base rules.tableDataTypeMapSlice
              rules.schemaDataTypeMapSlice)) := by
  induction rows with
  | nil => intro m m2 _ hmem; simp at hmem
  | cons x rest ih =>
    intro m m2 hloop hmem hnodup
    simp only [datatypeColumns] at hloop
    simp only [List.map_cons, List.nodup_cons] at hnodup
    cases hx : datatypeColumn c h r rules sourceTable m x with
    | error err => simp [hx] at hloop
    | ok mx =>
      rw [hx] at hloop
      rcases List.mem_cons.mp hmem with hrow | hrow
      · subst hrow
        rw [datatypeColumns_other_entry c h r rules sourceTable _ rest mx m2 hloop hnodup.1]
        rw [datatypeColumn_own_entry c h r rules sourceTable m rowCol origin base hmap] at hx
        injection hx with hm
        rw [← hm, mapAssign_same]
      · exact ih mx m2 hloop hrow hnodup.2

/-- When `wg.Wait()` returns nil, no worker has failed. -/
theorem ok_of_firstError_none {α : Type} (finished : List (Except GoError α))
    (h : firstError finished = none) : ∀ x ∈ finished, ∃ a, x = .ok a := by
  induction finished with
  | nil => intro x hx; simp at hx
  | cons y rest ih =>
    intro x hx
    cases y with
    | error err => simp [firstError] at h
    | ok a =>
      rcases List.mem_cons.mp hx with hx | hx
      · exact ⟨a, hx⟩
      · exact ih (by simpa [firstError] using h) x hx

/-- When no worker has failed, `wg.Wait()` returns nil. -/
theorem firstError_none_of_ok {α : Type} (finished : List (Except GoError α))
    (h : ∀ x ∈ finished, ∃ a, x = .ok a) : firstError finished = none := by
  induction finished with
  | nil => rfl
  | cons y rest ih =>
    obtain ⟨a, ha⟩ := h y (List.mem_cons_self _ _)
    subst ha
    simpa [firstError] using ih (fun x hx => h x (List.mem_cons_of_mem _ hx))

/-- The entries on the channel are those of the workers that succeeded. -/
theorem mem_sentEntries {α : Type} (finished : List (Except GoError α)) (a : α) :
    a ∈ sentEntries finished ↔ Except.ok a ∈ finished := by
  induction finished with
  | nil => simp [sentEntries]
  | cons y rest ih =>
    cases y with
    | error err => simp [sentEntries, ih]
    | ok b => simp [sentEntries, ih]

/-- The aggregator ends with `inner` under `table` when some received entry carries that
table and all entries that carry it hold `inner`. -/
theorem columnAggregator_entry (table : String) (inner : GoMap String)
    (received : List (String × GoMap String)) :
    ∀ m : GoMap (GoMap String),
      (∀ e ∈ received, e.1 = table → e.2 = inner) →
      (m table = some inner ∨ ∃ e ∈ received, e.1 = table) →
      columnAggregator m received table = some inner := by
  induction received with
  | nil =>
    intro m _ h
    rcases h with h | ⟨e, he, _⟩
    · simpa [columnAggregator] using h
    · simp at he
  | cons x rest ih =>
    intro m hall h
    have hfold : columnAggregator m (x :: rest) = columnAggregator (mapAssign m x.1 x.2) rest := by
      simp [columnAggregator]
    rw [hfold]
    apply ih
    · exact fun e he => hall e (List.mem_cons_of_mem _ he)
    · by_cases hx : x.1 = table
      · left
        rw [← hx, mapAssign_same, hall x (List.mem_cons_self _ _) hx]
      · rcases h with h | ⟨e, he, het⟩
        · left
          rw [mapAssign_other _ _ _ _ (Ne.symm hx)]
          exact h
        · rcases List.mem_cons.mp he with he | he
          · exact absurd (he ▸ het) hx
          · exact Or.inr ⟨e, he, het⟩

/-- C3. In a run of `ChangeTableColumnDatatype` in which the rule collections load and no
worker fails, take any column of any input table (the catalog rows of the table carrying
pairwise different column names), write `base` for the builtin type returned by
`MySQLTableColumnMapRule`, `colCandidate` for the result of the column-scope helper and
`otherCandidate` for the result of the table-or-schema helper. The type stored for the
column in the returned map is `upper(colCandidate)` whenever `colCandidate != base`
(whatever `otherCandidate` is), `upper(otherCandidate)` when `colCandidate == base` and
`otherCandidate != base`, and `upper(base)` when both candidates equal `base`. -/
theorem datatype_cascade_decision (c : Common) (h : Helpers) (r : Change)
    (order : List String)
    (buildin : List BuildinDatatypeRule) (schemaRules : List SchemaDatatypeRule)
    (tableRules : List TableDatatypeRule) (columnRules : List ColumnDatatypeRule)
    (sourceTable : String) (rows : List Row) (rowCol : Row) (origin base : String)
    (hThreads : r.Threads ≠ 0)
    (horder : order.Perm r.SourceTables)
    (hbuildin : r.MetaDB.BatchQueryBuildinDatatype (buildinDatatypeQuery c) = .ok buildin)
    (hschema : r.MetaDB.DetailSchemaRule (schemaDatatypeQuery c r) = .ok schemaRules)
    (htable : r.MetaDB.DetailTableRule (tableDatatypeQuery c r) = .ok tableRules)
    (hcolumn : r.MetaDB.DetailColumnRule (columnDatatypeQuery c r) = .ok columnRules)
    (hwait : firstError (r.SourceTables.map (datatypeWorker c h r
      { buildinDatatypeNames := buildin, schemaDataTypeMapSlice := schemaRules,
        tableDataTypeMapSlice := tableRules, columnDataTypeMapSlice := columnRules })) = none)
    (hsource : sourceTable ∈ r.SourceTables)
    (hrows : r.MySQL.GetMySQLTableColumn r.SourceSchemaName sourceTable = .ok rows)
    (hrow : rowCol ∈ rows)
    (hnames : (rows.map (fun row => row "COLUMN_NAME")).Nodup)
    (hmap : h.MySQLTableColumnMapRule r.SourceSchemaName sourceTable (columnOfRow rowCol)
      buildin = .ok (origin, base)) :
    (h.loadColumnTypeRuleOnlyUsingColumn (rowCol "COLUMN_NAME") origin base columnRules ≠ base →
        resolvedEntry (ChangeTableColumnDatatype c h r order) sourceTable (rowCol "COLUMN_NAME")
          = some (c.StringUPPER
              (h.loadColumnTypeRuleOnlyUsingColumn (rowCol "COLUMN_NAME") origin base
                columnRules)))
      ∧ (h.loadColumnTypeRuleOnlyUsingColumn (rowCol "COLUMN_NAME") origin base columnRules
            = base →
          h.LoadDataTypeRuleUsingTableOrSchema origin base tableRules schemaRules ≠ base →
          resolvedEntry (ChangeTableColumnDatatype c h r order) sourceTable
              (rowCol "COLUMN_NAME")
            = some (c.StringUPPER
                (h.LoadDataTypeRuleUsingTableOrSchema origin base tableRules schemaRules)))
      ∧ (h.loadColumnTypeRuleOnlyUsingColumn (rowCol "COLUMN_NAME") origin base columnRules
            = base →
          h.LoadDataTypeRuleUsingTableOrSchema origin base tableRules schemaRules = base →
          resolvedEntry (ChangeTableColumnDatatype c h r order) sourceTable
              (rowCol "COLUMN_NAME")
            = some (c.StringUPPER base)) := by
  -- the worker of the table succeeds and its column map holds the cascade result
  obtain ⟨entry, hentry⟩ := ok_of_firstError_none _ hwait _
    (List.mem_map.mpr ⟨sourceTable, hsource, rfl⟩)
  have hworker := hentry
  simp only [datatypeWorker, hrows] at hworker
  cases hloop : datatypeColumns c h r
      { buildinDatatypeNames := buildin, schemaDataTypeMapSlice := schemaRules,
        tableDataTypeMapSlice := tableRules, columnDataTypeMapSlice := columnRules }
      sourceTable makeMap rows with
  | error err => simp [hloop] at hworker
  | ok inner =>
    rw [hloop] at hworker
    injection hworker with hentryEq
    have hinner := datatypeColumns_entry c h r
      { buildinDatatypeNames := buildin, schemaDataTypeMapSlice := schemaRules,
        tableDataTypeMapSlice := tableRules, columnDataTypeMapSlice := columnRules }
      sourceTable rowCol origin base hmap rows makeMap inner hloop hrow hnames
    -- no worker fails in the order in which they finish either
    have hfinished : firstError (order.map (datatypeWorker c h r
        { buildinDatatypeNames := buildin, schemaDataTypeMapSlice := schemaRules,
          tableDataTypeMapSlice := tableRules, columnDataTypeMapSlice := columnRules }))
        = none := by
      apply firstError_none_of_ok
      intro x hx
      obtain ⟨t, ht, hxt⟩ := List.mem_map.mp hx
      exact ok_of_firstError_none _ hwait x
        (List.mem_map.mpr ⟨t, horder.mem_iff.mp ht, hxt⟩)
    -- the aggregator stores the column map under the table
    have hagg : columnAggregator makeMap (sentEntries (order.map (datatypeWorker c h r
        { buildinDatatypeNames := buildin, schemaDataTypeMapSlice := schemaRules,
          tableDataTypeMapSlice := tableRules, columnDataTypeMapSlice := columnRules })))
        sourceTable = some inner := by
      apply columnAggregator_entry
      · intro e he het
        rw [mem_sentEntries] at he
        obtain ⟨t, _, hte⟩ := List.mem_map.mp he
        have hfst : e.1 = t := by
          unfold datatypeWorker at hte
          split at hte
          · cases hte
          · split at hte
            · cases hte
            · injection hte with hte
              rw [← hte]
        rw [hfst] at het
        subst het
        rw [hentry] at hte
        injection hte with hte
        rw [← hte, ← hentryEq]
      · right
        refine ⟨entry, ?_, by rw [← hentryEq]⟩
        rw [mem_sentEntries, ← hentry]
        exact List.mem_map.mpr ⟨sourceTable, horder.mem_iff.mpr hsource, rfl⟩
    have hresolved :
        resolvedEntry (ChangeTableColumnDatatype c h r order) sourceTable (rowCol "COLUMN_NAME")
          = some (generalCascade c base
              (h.loadColumnTypeRuleOnlyUsingColumn (rowCol "COLUMN_NAME") origin base
                columnRules)
              (h.LoadDataTypeRuleUsingTableOrSchema origin base tableRules schemaRules)) := by
      simp only [ChangeTableColumnDatatype, hbuildin, hschema, htable, hcolumn, fanOutFanIn,
        hThreads, false_and, if_false, hfinished, resolvedEntry, hagg]
      exact hinner
    refine ⟨?_, ?_, ?_⟩
    · intro hc
      rw [hresolved]
      simp [generalCascade, hc]
    · intro hc ho
      rw [hresolved]
      simp [generalCascade, hc, ho]
    · intro hc ho
      rw [hresolved]
      simp [generalCascade, hc, ho]

/-- Witness of C3: in the run over the tables `a` and `b` of schema `shop` with the
table-scope rule `int -> number(10)` and no column-scope rule, column `c1 int` of table `a`
is stored as `NUMBER(10)`. -/
theorem datatype_cascade_decision_witness :
    resolvedEntry (ChangeTableColumnDatatype stdCommon specHelpers
      (shopRun tableRuleMeta 2 ["a", "b"]) ["b", "a"]) "a" "c1" = some "NUMBER(10)" :=
  (datatype_cascade_decision stdCommon specHelpers (shopRun tableRuleMeta 2 ["a", "b"])
    ["b", "a"]
    [{ DBTypeS := "MYSQL", DBTypeT := "ORACLE", DatatypeNameS := "INT",
       DatatypeNameT := "NUMBER" },
     { DBTypeS := "MYSQL", DBTypeT := "ORACLE", DatatypeNameS := "DATETIME",
       DatatypeNameT := "DATE" }]
    [] [tableRuleForA] [] "a" [intRow, createdRow] intRow "int" "NUMBER"
    (by decide) (by decide) rfl rfl rfl rfl (by decide) (by decide) rfl
    (List.mem_cons_self _ _) (by decide) rfl).2.1 (by decide) (by decide)

/-- The loop body and the general cascade of the spec store the same map for a column. -/
theorem datatypeColumn_eq_generalColumn (c : Common) (h : Helpers) (r : Change)
    (rules : DatatypeRules) (sourceTable : String) (m : GoMap String) (rowCol : Row) :
    datatypeColumn c h r rules sourceTable m rowCol
      = generalDatatypeColumn c h r rules sourceTable m rowCol := by
  unfold datatypeColumn generalDatatypeColumn
  cases hmap : h.MySQLTableColumnMapRule r.SourceSchemaName sourceTable (columnOfRow rowCol)
      rules.buildinDatatypeNames with
  | error err => rfl
  | ok p =>
    obtain ⟨origin, base⟩ := p
    simp only [prioritySwitch_eq_generalCascade, emptyColumnRulesBranch]
    by_cases hlen : rules.columnDataTypeMapSlice.length = 0
    · simp only [hlen, if_true, mapAssign_overwrite]
    · simp only [hlen, if_false]

/-- The loop of `ChangeTableColumnDatatype` over the columns of a table and the general
algorithm of the spec store the same map, whatever the rule collections hold. -/
theorem datatypeColumns_eq_general (c : Common) (h : Helpers) (r : Change)
    (rules : DatatypeRules) (sourceTable : String) (rows : List Row) :
    ∀ m : GoMap String,
      datatypeColumns c h r rules sourceTable m rows
        = generalDatatypeColumns c h r rules sourceTable m rows := by
  induction rows with
  | nil => intro m; rfl
  | cons rowCol rest ih =>
    intro m
    simp only [datatypeColumns, generalDatatypeColumns,
      datatypeColumn_eq_generalColumn c h r rules sourceTable m rowCol]
    cases generalDatatypeColumn c h r rules sourceTable m rowCol with
    | error err => rfl
    | ok m2 => exact ih m2

/-- The loop body never looks at the table name beyond what `MySQLTableColumnMapRule` makes
of it: two tables for which that function agrees on a row get the same stored map. -/
theorem datatypeColumn_table_irrelevant (c : Common) (h : Helpers) (r : Change)
    (rules : DatatypeRules) (tableA tableB : String) (m : GoMap String) (rowCol : Row)
    (hmap : h.MySQLTableColumnMapRule r.SourceSchemaName tableA (columnOfRow rowCol)
        rules.buildinDatatypeNames
      = h.MySQLTableColumnMapRule r.SourceSchemaName tableB (columnOfRow rowCol)
        rules.buildinDatatypeNames) :
    datatypeColumn c h r rules tableA m rowCol = datatypeColumn c h r rules tableB m rowCol := by
  unfold datatypeColumn
  rw [hmap]

/-- Two tables with the same catalog rows, on which `MySQLTableColumnMapRule` agrees,
resolve to the same column map whatever the rule slices hold and whatever the two rule
helpers compute. -/
theorem datatypeColumns_table_irrelevant (c : Common) (h : Helpers) (r : Change)
    (rules : DatatypeRules) (tableA tableB : String) (rows : List Row) :
    ∀ m : GoMap String,
      (∀ rowCol ∈ rows,
        h.MySQLTableColumnMapRule r.SourceSchemaName tableA (columnOfRow rowCol)
            rules.buildinDatatypeNames
          = h.MySQLTableColumnMapRule r.SourceSchemaName tableB (columnOfRow rowCol)
            rules.buildinDatatypeNames) →
      datatypeColumns c h r rules tableA m rows = datatypeColumns c h r rules tableB m rows := by
  induction rows with
  | nil => intro m _; rfl
  | cons rowCol rest ih =>
    intro m hagree
    have hstep := datatypeColumn_table_irrelevant c h r rules tableA tableB m rowCol
      (hagree rowCol (List.mem_cons_self _ _))
    simp only [datatypeColumns, hstep]
    cases datatypeColumn c h r rules tableB m rowCol with
    | error err => rfl
    | ok m2 => exact ih m2 (fun row hrow => hagree row (List.mem_cons_of_mem _ hrow))

/-- C4 (code at the failing input). Tables `a` and `b` of schema `shop` both have a column
`c1` of native type `int` and builtin type `NUMBER`. With the table-scope rule written for
table `a` only, column `c1` of table `b` resolves to `NUMBER(10)` like that of table `a`;
with the column-scope rule written for table `a` only, column `c1` of table `b` resolves to
`NUMBER(19)` like that of table `a`; without any rule it resolves to `NUMBER`. -/
theorem datatype_rule_for_a_changes_b :
    tableRuleForA.TableNameS = "a" ∧ columnRuleForA.TableNameS = "a"
      ∧ resolvedEntry (ChangeTableColumnDatatype stdCommon specHelpers
          (shopRun tableRuleMeta 2 ["a", "b"]) ["a", "b"]) "a" "c1" = some "NUMBER(10)"
      ∧ resolvedEntry (ChangeTableColumnDatatype stdCommon specHelpers
          (shopRun tableRuleMeta 2 ["a", "b"]) ["a", "b"]) "b" "c1" = some "NUMBER(10)"
      ∧ resolvedEntry (ChangeTableColumnDatatype stdCommon specHelpers
          (shopRun columnRuleMeta 2 ["a", "b"]) ["a", "b"]) "a" "c1" = some "NUMBER(19)"
      ∧ resolvedEntry (ChangeTableColumnDatatype stdCommon specHelpers
          (shopRun columnRuleMeta 2 ["a", "b"]) ["a", "b"]) "b" "c1" = some "NUMBER(19)"
      ∧ resolvedEntry (ChangeTableColumnDatatype stdCommon specHelpers
          (shopRun builtinOnlyMeta 2 ["a", "b"]) ["a", "b"]) "b" "c1" = some "NUMBER" := by
  refine ⟨rfl, rfl, by decide, by decide, by decide, by decide, by decide⟩

/-! ## Theorems: default-literal normalization -/

theorem isIdentChar_ne_newline (ch : Char) (h : isIdentChar ch = true) : (ch != '\n') = true := by
  by_cases hc : ch = '\n'
  · subst hc
    exact absurd h (by decide)
  · simpa using hc

/-- A raw default of the form `identifier()` matches the regular expression. -/
theorem regMatchString_of_isIdentifierCall (s : String) (h : isIdentifierCall s = true) :
    regMatchString s = true := by
  unfold isIdentifierCall at h
  unfold regMatchString
  simp only [Bool.and_eq_true] at h ⊢
  refine ⟨h.1, ?_⟩
  rw [List.all_eq_true]
  intro ch hch
  exact isIdentChar_ne_newline ch (List.all_eq_true.mp h.2 ch hch)

theorem foldEqRune_of_lowerRune_eq (a b : Nat) (h : lowerRune a = lowerRune b) :
    foldEqRune a b = true := by
  unfold lowerRune at h
  unfold foldEqRune
  simp only [Bool.or_eq_true, decide_eq_true_eq]
  rcases Nat.le_total a b with hab | hab
  · rw [min_eq_left hab, max_eq_right hab]
    split_ifs at h <;> omega
  · rw [min_eq_right hab, max_eq_left hab]
    split_ifs at h <;> omega

theorem equalFoldRunes_of_lower_eq :
    ∀ s t : List Char,
      s.map (fun ch => lowerRune ch.toNat) = t.map (fun ch => lowerRune ch.toNat) →
      equalFoldRunes s t = true
  | [], [], _ => rfl
  | [], _ :: _, h => by simp at h
  | _ :: _, [], h => by simp at h
  | a :: s, b :: t, h => by
    simp only [List.map_cons, List.cons.injEq] at h
    simp only [equalFoldRunes, Bool.and_eq_true]
    exact ⟨foldEqRune_of_lowerRune_eq _ _ h.1, equalFoldRunes_of_lower_eq s t h.2⟩

/-- Texts that differ only in the case of their letters are equal for `EqualFold`. -/
theorem EqualFold_of_sameUpToLetterCase (s t : String) (h : sameUpToLetterCase s t = true) :
    EqualFold s t = true := by
  unfold sameUpToLetterCase at h
  exact equalFoldRunes_of_lower_eq _ _ (by simpa using h)

/-- Only the empty text is equal to the empty text for `EqualFold`. -/
theorem EqualFold_empty_iff (s : String) : EqualFold s "" = true ↔ s = "" := by
  constructor
  · intro h
    unfold EqualFold at h
    cases hs : s.data with
    | nil => exact String.ext hs
    | cons a rest =>
      rw [hs] at h
      simp [equalFoldRunes] at h
  · intro h
    subst h
    rfl

/-- The call `common.StringsBuilder` with a quote, the raw default and a quote. -/
theorem StringsBuilder_quote (raw : String) :
    StringsBuilder ["'", raw, "'"] = "'" ++ raw ++ "'" := by
  rfl

/-- C5. The raw default is handed to the default-value cascade unchanged and unquoted when
the upper-cased native type is not in the default-sensitive type set, or the raw default is
a function call of the form `identifier()`, or it equals `CURRENT_TIMESTAMP` in any letter
case, or it is the empty string: `regDataDefault` is the raw literal, and the entry stored
for the column is `LoadColumnDefaultValueRule` applied to the raw literal. -/
theorem regDataDefault_unchanged (c : Common) (rowCol : Row)
    (hcase :
      IsContainString c.SpecialMySQLDataDefaultsWithDataTYPE
          (c.StringUPPER (rowCol "DATA_TYPE")) = false
        ∨ isIdentifierCall (rowCol "DATA_DEFAULT") = true
        ∨ sameUpToLetterCase (rowCol "DATA_DEFAULT") "CURRENT_TIMESTAMP" = true
        ∨ rowCol "DATA_DEFAULT" = "") :
    regDataDefault c rowCol = rowCol "DATA_DEFAULT"
      ∧ ∀ (h : Helpers) (rules : DefaultValueRules) (m : GoMap String),
          defaultValueColumn c h rules m rowCol (rowCol "COLUMN_NAME")
            = some (h.LoadColumnDefaultValueRule (rowCol "COLUMN_NAME") (rowCol "DATA_DEFAULT")
                rules.columnDefaultValueMapSlice rules.globalDefaultValueMapSlice) := by
  have hreg : regDataDefault c rowCol = rowCol "DATA_DEFAULT" := by
    unfold regDataDefault
    rcases hcase with hset | hcall | hts | hempty
    · simp [hset]
    · simp [regMatchString_of_isIdentifierCall _ hcall]
    · simp [EqualFold_of_sameUpToLetterCase _ _ hts]
    · simp [(EqualFold_empty_iff _).mpr hempty]
  refine ⟨hreg, ?_⟩
  intro h rules m
  unfold defaultValueColumn
  rw [mapAssign_same, hreg]

/-- Witness of C5: a `datetime` column with the raw defaults `now()`, `current_Timestamp`
and the empty string, and a `varchar` column with the raw default `active`. -/
theorem regDataDefault_unchanged_witness :
    regDataDefault stdCommon (datetimeRow "now()") = "now()"
      ∧ regDataDefault stdCommon (datetimeRow "current_Timestamp") = "current_Timestamp"
      ∧ regDataDefault stdCommon (datetimeRow "") = ""
      ∧ regDataDefault stdCommon (varcharRow "active") = "active" :=
  ⟨(regDataDefault_unchanged stdCommon (datetimeRow "now()")
      (Or.inr (Or.inl (by decide)))).1,
   (regDataDefault_unchanged stdCommon (datetimeRow "current_Timestamp")
      (Or.inr (Or.inr (Or.inl (by decide))))).1,
   (regDataDefault_unchanged stdCommon (datetimeRow "")
      (Or.inr (Or.inr (Or.inr (by decide))))).1,
   (regDataDefault_unchanged stdCommon (varcharRow "active") (Or.inl (by decide))).1⟩

/-- The regular expression `^.+\(\)$` matches exactly the texts that end in `()` after a
non-empty text without line feed. -/
theorem regMatchString_iff (s : String) : regMatchString s = true ↔ singleLineCall s := by
  unfold regMatchString singleLineCall
  simp only [Bool.and_eq_true, decide_eq_true_eq, beq_iff_eq, List.all_eq_true, bne_iff_ne]
  constructor
  · rintro ⟨⟨hlen, hdrop⟩, hall⟩
    refine ⟨s.data.take (s.data.length - 2), ?_, ?_, ?_⟩
    · intro hnil
      have hl := congrArg List.length hnil
      simp only [List.length_take, List.length_nil] at hl
      omega
    · intro hmem
      exact hall _ hmem rfl
    · rw [← hdrop]
      exact (List.take_append_drop _ _).symm
  · rintro ⟨pre, hne, hnl, hdata⟩
    have hpos : 0 < pre.length := List.length_pos.mpr hne
    have hlen : s.data.length - 2 = pre.length := by
      rw [hdata, List.length_append]
      simp
    rw [hlen]
    rw [hdata]
    refine ⟨⟨?_, ?_⟩, ?_⟩
    · rw [List.length_append]
      simp only [List.length_cons, List.length_nil]
      omega
    · exact List.drop_left _ _
    · intro ch hch hnewline
      rw [List.take_left] at hch
      exact hnl (hnewline ▸ hch)

/-- C6, as amended. For every column whose upper-cased native type is in the
default-sensitive type set: if the raw default is neither of the form text followed by
`()` (text being any non-empty text without line feed) nor `CURRENT_TIMESTAMP` ignoring case
nor the empty string, the value handed to the default-value cascade is the raw default
wrapped in single quotes; and a raw default that ends in `()` after any non-empty text
without line feed, whether or not that text is an identifier, is handed on unquoted. -/
theorem regDataDefault_quoted (c : Common) (rowCol : Row)
    (hset : IsContainString c.SpecialMySQLDataDefaultsWithDataTYPE
      (c.StringUPPER (rowCol "DATA_TYPE")) = true) :
    (¬ singleLineCall (rowCol "DATA_DEFAULT") →
        EqualFold (rowCol "DATA_DEFAULT") "CURRENT_TIMESTAMP" = false →
        rowCol "DATA_DEFAULT" ≠ "" →
        regDataDefault c rowCol = "'" ++ rowCol "DATA_DEFAULT" ++ "'"
          ∧ ∀ (h : Helpers) (rules : DefaultValueRules) (m : GoMap String),
              defaultValueColumn c h rules m rowCol (rowCol "COLUMN_NAME")
                = some (h.LoadColumnDefaultValueRule (rowCol "COLUMN_NAME")
                    ("'" ++ rowCol "DATA_DEFAULT" ++ "'")
                    rules.columnDefaultValueMapSlice rules.globalDefaultValueMapSlice))
      ∧ (singleLineCall (rowCol "DATA_DEFAULT") →
        regDataDefault c rowCol = rowCol "DATA_DEFAULT"
          ∧ ∀ (h : Helpers) (rules : DefaultValueRules) (m : GoMap String),
              defaultValueColumn c h rules m rowCol (rowCol "COLUMN_NAME")
                = some (h.LoadColumnDefaultValueRule (rowCol "COLUMN_NAME")
                    (rowCol "DATA_DEFAULT")
                    rules.columnDefaultValueMapSlice rules.globalDefaultValueMapSlice)) := by
  constructor
  · intro hcall hts hne
    have hreg : regMatchString (rowCol "DATA_DEFAULT") = false := by
      cases hR : regMatchString (rowCol "DATA_DEFAULT") with
      | false => rfl
      | true => exact absurd ((regMatchString_iff _).mp hR) hcall
    have hempty : EqualFold (rowCol "DATA_DEFAULT") "" = false := by
      cases hE : EqualFold (rowCol "DATA_DEFAULT") "" with
      | false => rfl
      | true => exact absurd ((EqualFold_empty_iff _).mp hE) hne
    have hq : regDataDefault c rowCol = "'" ++ rowCol "DATA_DEFAULT" ++ "'" := by
      unfold regDataDefault
      simp only [hset, hreg, hts, hempty, if_true, Bool.or_self, Bool.false_eq_true, if_false]
      exact StringsBuilder_quote _
    refine ⟨hq, ?_⟩
    intro h rules m
    unfold defaultValueColumn
    rw [mapAssign_same, hq]
  · intro hcall
    have hreg : regMatchString (rowCol "DATA_DEFAULT") = true := (regMatchString_iff _).mpr hcall
    have hq : regDataDefault c rowCol = rowCol "DATA_DEFAULT" := by
      unfold regDataDefault
      simp only [hset, hreg, if_true, Bool.true_or]
    refine ⟨hq, ?_⟩
    intro h rules m
    unfold defaultValueColumn
    rw [mapAssign_same, hq]

/-- Witness of C6: a `datetime` column with the raw default `active` gets `'active'`, and
with the raw default `a b()` it keeps `a b()`. -/
theorem regDataDefault_quoted_witness :
    regDataDefault stdCommon (datetimeRow "active") = "'active'"
      ∧ regDataDefault stdCommon (datetimeRow "a b()") = "a b()" :=
  ⟨((regDataDefault_quoted stdCommon (datetimeRow "active") (by decide)).1
      (fun hcall => absurd ((regMatchString_iff _).mpr hcall) (by decide))
      (by decide) (by decide)).1,
   ((regDataDefault_quoted stdCommon (datetimeRow "a b()") (by decide)).2
      ((regMatchString_iff _).mp (by decide))).1⟩

/-- C6, counterexample to the claim as stated. A `datetime` column (a default-sensitive
type) with the raw default `a b()`: the literal ends in `()`, its prefix `a b` is not an
identifier, it is neither `CURRENT_TIMESTAMP` nor empty, and yet the value handed to the
cascade is `a b()` as it is, not `'a b()'`. -/
theorem regDataDefault_not_quoted :
    IsContainString stdCommon.SpecialMySQLDataDefaultsWithDataTYPE
        (stdCommon.StringUPPER (datetimeRow "a b()" "DATA_TYPE")) = true
      ∧ isIdentifierCall (datetimeRow "a b()" "DATA_DEFAULT") = false
      ∧ EqualFold (datetimeRow "a b()" "DATA_DEFAULT") "CURRENT_TIMESTAMP" = false
      ∧ datetimeRow "a b()" "DATA_DEFAULT" ≠ ""
      ∧ regDataDefault stdCommon (datetimeRow "a b()") = "a b()"
      ∧ regDataDefault stdCommon (datetimeRow "a b()")
          ≠ "'" ++ datetimeRow "a b()" "DATA_DEFAULT" ++ "'" := by
  refine ⟨by decide, by decide, by decide, by decide, by decide, by decide⟩

/-! ## Theorems: the error path -/

/-- If some worker failed, `wg.Wait()` returns an error. -/
theorem firstError_of_mem {α : Type} (finished : List (Except GoError α)) (e : GoError)
    (h : Except.error e ∈ finished) : ∃ err, firstError finished = some err := by
  induction finished with
  | nil => simp at h
  | cons x rest ih =>
    cases x with
    | error err => exact ⟨err, rfl⟩
    | ok a =>
      rcases List.mem_cons.mp h with h | h
      · cases h
      · simpa [firstError] using ih h

/-- With a limit other than zero and a failed worker the shared tail returns `nil, err`. -/
theorem fanOutFanIn_of_error (threads : Int) (sourceTables : List String)
    (m : GoMap (GoMap String)) (finished : List (Except GoError (String × GoMap String)))
    (e : GoError) (hThreads : threads ≠ 0) (h : Except.error e ∈ finished) :
    ∃ out err, fanOutFanIn threads sourceTables m finished = some out
      ∧ out.result = none ∧ out.err = some err
      ∧ out.aggregatorStarted = true ∧ out.chanClosed = false := by
  obtain ⟨err, herr⟩ := firstError_of_mem finished e h
  refine ⟨{ result := none, err := some err, aggregatorStarted := true, chanClosed := false,
            doneReceived := false }, err, ?_, rfl, rfl, rfl, rfl⟩
  simp only [fanOutFanIn, hThreads, false_and, if_false, herr]

/-- C7, as amended. For every list of source tables, every concurrency limit other than
zero and every order in which the workers finish: if the rule collections load without
error and `GetMySQLTableColumn` returns an error for at least one input table, then
`ChangeTableColumnDatatype` and `ChangeTableColumnDefaultValue` both return a non-nil error
together with a nil map. -/
theorem catalog_failure_returns_nil_map (c : Common) (h : Helpers) (r : Change)
    (order : List String)
    (buildin : List BuildinDatatypeRule) (schemaRules : List SchemaDatatypeRule)
    (tableRules : List TableDatatypeRule) (columnRules : List ColumnDatatypeRule)
    (globalDefaults : List BuildinGlobalDefaultval)
    (columnDefaults : List BuildinColumnDefaultval)
    (hThreads : r.Threads ≠ 0)
    (horder : order.Perm r.SourceTables)
    (hbuildin : r.MetaDB.BatchQueryBuildinDatatype (buildinDatatypeQuery c) = .ok buildin)
    (hschema : r.MetaDB.DetailSchemaRule (schemaDatatypeQuery c r) = .ok schemaRules)
    (htable : r.MetaDB.DetailTableRule (tableDatatypeQuery c r) = .ok tableRules)
    (hcolumn : r.MetaDB.DetailColumnRule (columnDatatypeQuery c r) = .ok columnRules)
    (hglobal : r.MetaDB.DetailGlobalDefaultVal (globalDefaultvalQuery c) = .ok globalDefaults)
    (hcoldef : r.MetaDB.DetailColumnDefaultVal (columnDefaultvalQuery c r) = .ok columnDefaults)
    (hfail : ∃ t ∈ r.SourceTables, ∃ e,
      r.MySQL.GetMySQLTableColumn r.SourceSchemaName t = .error e) :
    (∃ out err, ChangeTableColumnDatatype c h r order = some out
        ∧ out.result = none ∧ out.err = some err)
      ∧ (∃ out err, ChangeTableColumnDefaultValue c h r order = some out
        ∧ out.result = none ∧ out.err = some err) := by
  obtain ⟨t, ht, e, hcat⟩ := hfail
  have hmem : t ∈ order := horder.mem_iff.mpr ht
  constructor
  · have hw : Except.error e ∈ order.map (datatypeWorker c h r
        { buildinDatatypeNames := buildin, schemaDataTypeMapSlice := schemaRules,
          tableDataTypeMapSlice := tableRules, columnDataTypeMapSlice := columnRules }) :=
      List.mem_map.mpr ⟨t, hmem, by simp only [datatypeWorker, hcat]⟩
    obtain ⟨out, err, hout, hres, herr, _, _⟩ :=
      fanOutFanIn_of_error r.Threads r.SourceTables makeMap _ e hThreads hw
    refine ⟨out, err, ?_, hres, herr⟩
    simp only [ChangeTableColumnDatatype, hbuildin, hschema, htable, hcolumn]
    exact hout
  · have hw : Except.error e ∈ order.map (defaultValueWorker c h r
        { globalDefaultValueMapSlice := globalDefaults,
          columnDefaultValueMapSlice := columnDefaults }) :=
      List.mem_map.mpr ⟨t, hmem, by simp only [defaultValueWorker, hcat]⟩
    obtain ⟨out, err, hout, hres, herr, _, _⟩ :=
      fanOutFanIn_of_error r.Threads r.SourceTables makeMap _ e hThreads hw
    refine ⟨out, err, ?_, hres, herr⟩
    simp only [ChangeTableColumnDefaultValue, hglobal, hcoldef]
    exact hout

/-- Witness of C7: tables `a` and `zz` of schema `shop` with one worker; the catalog does
not know `zz`. -/
theorem catalog_failure_returns_nil_map_witness :
    (∃ out err, ChangeTableColumnDatatype stdCommon specHelpers
          (shopRun builtinOnlyMeta 1 ["a", "zz"]) ["zz", "a"] = some out
        ∧ out.result = none ∧ out.err = some err)
      ∧ (∃ out err, ChangeTableColumnDefaultValue stdCommon specHelpers
          (shopRun builtinOnlyMeta 1 ["a", "zz"]) ["zz", "a"] = some out
        ∧ out.result = none ∧ out.err = some err) :=
  catalog_failure_returns_nil_map stdCommon specHelpers (shopRun builtinOnlyMeta 1 ["a", "zz"])
    ["zz", "a"]
    [{ DBTypeS := "MYSQL", DBTypeT := "ORACLE", DatatypeNameS := "INT",
       DatatypeNameT := "NUMBER" },
     { DBTypeS := "MYSQL", DBTypeT := "ORACLE", DatatypeNameS := "DATETIME",
       DatatypeNameT := "DATE" }]
    [] [] [] [] []
    (by decide) (by decide) rfl rfl rfl rfl rfl rfl
    ⟨"zz", by decide, "table not found", rfl⟩

/-- C7, counterexample to the claim as stated. Tables `a` and `zz` of schema `shop` with a
concurrency limit of zero: every rule collection loads without error, the catalog fetch
fails for `zz`, and neither operation returns anything, since `wg.Go` waits for a free
slot of a pool that has none. -/
theorem zero_threads_never_returns :
    (builtinOnlyMeta.DetailSchemaRule
        (schemaDatatypeQuery stdCommon (shopRun builtinOnlyMeta 0 ["a", "zz"])) = .ok []
      ∧ builtinOnlyMeta.DetailTableRule
        (tableDatatypeQuery stdCommon (shopRun builtinOnlyMeta 0 ["a", "zz"])) = .ok []
      ∧ builtinOnlyMeta.DetailColumnRule
        (columnDatatypeQuery stdCommon (shopRun builtinOnlyMeta 0 ["a", "zz"])) = .ok []
      ∧ builtinOnlyMeta.DetailGlobalDefaultVal (globalDefaultvalQuery stdCommon) = .ok []
      ∧ builtinOnlyMeta.DetailColumnDefaultVal
        (columnDefaultvalQuery stdCommon (shopRun builtinOnlyMeta 0 ["a", "zz"])) = .ok [])
      ∧ (∃ rules, builtinOnlyMeta.BatchQueryBuildinDatatype (buildinDatatypeQuery stdCommon)
          = .ok rules)
      ∧ shopCatalog.GetMySQLTableColumn "shop" "zz" = .error "table not found"
      ∧ ChangeTableColumnDatatype stdCommon specHelpers
          (shopRun builtinOnlyMeta 0 ["a", "zz"]) ["a", "zz"] = none
      ∧ ChangeTableColumnDefaultValue stdCommon specHelpers
          (shopRun builtinOnlyMeta 0 ["a", "zz"]) ["a", "zz"] = none := by
  refine ⟨⟨rfl, rfl, rfl, rfl, rfl⟩, ⟨_, rfl⟩, rfl, rfl, rfl⟩

/-- While its input channel is open the aggregator goroutine never reaches `done()`. -/
theorem aggregator_blocked_while_open {α : Type} :
    ∀ (fuel : Nat) (pending : List α), aggregatorReachesDone false fuel pending = false
  | 0, _ => rfl
  | _ + 1, [] => rfl
  | fuel + 1, _ :: rest => by
    simp only [aggregatorReachesDone]
    exact aggregator_blocked_while_open fuel rest

/-- Once its input channel is closed the aggregator goroutine drains it and reaches
`done()`. -/
theorem aggregator_done_when_closed {α : Type} :
    ∀ pending : List α, aggregatorReachesDone true (pending.length + 1) pending = true
  | [] => rfl
  | _ :: rest => by
    simp only [aggregatorReachesDone, List.length_cons]
    exact aggregator_done_when_closed rest

/-- C10 (code at the failing input). Tables `a` and `zz` of schema `shop` with one worker;
the catalog fetch fails for `zz`. Both operations return the error with the aggregator
started, its input channel not closed and `done` not received, so the aggregator never
reaches its completion signal, however long it runs and whatever is left in the channel. -/
theorem error_path_leaves_aggregator_blocked :
    leftBehind (ChangeTableColumnDatatype stdCommon specHelpers
        (shopRun builtinOnlyMeta 1 ["a", "zz"]) ["a", "zz"])
        = some (some "table not found", true, false, false)
      ∧ leftBehind (ChangeTableColumnDefaultValue stdCommon specHelpers
        (shopRun builtinOnlyMeta 1 ["a", "zz"]) ["a", "zz"])
        = some (some "table not found", true, false, false)
      ∧ ∀ (fuel : Nat) (pending : List (String × GoMap String)),
          aggregatorReachesDone false fuel pending = false := by
  refine ⟨by decide, by decide, aggregator_blocked_while_open⟩

/-! ## Theorems: the rule-store keys -/

/-- C8 (code at the failing input). For every run, the key passed to the column default
rule lookup has source engine `TaskDBOracle` and target engine `TaskDBMySQL`, while the
global default lookup and the column datatype lookup of the same module use source
`TaskDBMySQL` and target `TaskDBOracle`. For table `a` of schema `shop`, whose column
`created` has the default `CURRENT_TIMESTAMP`, the rule store holds a column default rule
under the key MySQL to Oracle, the lookup made with the swapped key finds nothing, and
the column keeps `CURRENT_TIMESTAMP` instead of the `SYSDATE` of the rule. -/
theorem columnDefault_query_engines_swapped :
    (∀ (c : Common) (r : Change),
        (columnDefaultvalQuery c r).DBTypeS = c.TaskDBOracle
          ∧ (columnDefaultvalQuery c r).DBTypeT = c.TaskDBMySQL
          ∧ (globalDefaultvalQuery c).DBTypeS = c.TaskDBMySQL
          ∧ (globalDefaultvalQuery c).DBTypeT = c.TaskDBOracle
          ∧ (columnDatatypeQuery c r).DBTypeS = c.TaskDBMySQL
          ∧ (columnDatatypeQuery c r).DBTypeT = c.TaskDBOracle)
      ∧ defaultRuleMeta.DetailColumnDefaultVal
          { DBTypeS := "MYSQL", DBTypeT := "ORACLE", SchemaNameS := "shop" }
          = .ok [defaultRuleForCreated]
      ∧ defaultRuleMeta.DetailColumnDefaultVal
          (columnDefaultvalQuery stdCommon (shopRun defaultRuleMeta 1 ["a"])) = .ok []
      ∧ resolvedEntry (ChangeTableColumnDefaultValue stdCommon specHelpers
          (shopRun defaultRuleMeta 1 ["a"]) ["a"]) "a" "created" = some "CURRENT_TIMESTAMP"
      ∧ specDefaultValueRule "created" "CURRENT_TIMESTAMP" [defaultRuleForCreated] []
          = "SYSDATE" := by
  refine ⟨fun c r => ⟨rfl, rfl, rfl, rfl, rfl, rfl⟩, rfl, rfl, by decide, by decide⟩

end M2O
